import Mathlib

/-!
Shallow embedding of the rotation-aware secrets client in
src/examples/secrets_client.py.

The remote secret store (boto3 client), the JSON decoder (json.loads), the
base64 encoder and the downstream connection attempt are external library
or injected capabilities in the source; they are modelled as fields of an
explicit environment record.  Python exceptions become an explicit error
type, the dict-based cache becomes an association list with dict semantics,
and wall-clock time is an explicit integer parameter.
-/

namespace SecretsClient

/-- Does the first char list occur as a leading segment of the second?
This is the char-level core of Python str.startswith. -/
def lcStartsWith : List Char → List Char → Bool
  | [], _ => true
  | _ :: _, [] => false
  | a :: as, b :: bs => a == b && lcStartsWith as bs

/-- Does the second char list occur as a contiguous segment of the first?
This is the char-level core of the Python `sub in s` test. -/
def lcContainsSub : List Char → List Char → Bool
  | [], pat => pat.isEmpty
  | c :: rest, pat => lcStartsWith pat (c :: rest) || lcContainsSub rest pat

/-- Python `s.startswith(p)`. -/
def strStarts (s p : String) : Bool := lcStartsWith p.data s.data

/-- Python `sub in s` on strings. -/
def strContainsSub (s sub : String) : Bool := lcContainsSub s.data sub.data

/-- Python `s.lower()` (ASCII case folding, which is all the source needs). -/
def strLower (s : String) : String := String.mk (s.data.map Char.toLower)

/-- A parsed JSON payload, as produced by json.loads in the source.  JSON
null and Python None are the same object, represented by `null`. -/
inductive SecretValue where
  | null
  | bool (b : Bool)
  | num (n : Int)
  | str (s : String)
  | arr (xs : List SecretValue)
  | obj (fields : List (String × SecretValue))

/-- Python truthiness of a parsed payload, as used by
`versions[ ... ] and versions[ ... ]` in connect (line 205). -/
def pyTruthy : SecretValue → Bool
  | .null => false
  | .bool b => b
  | .num n => decide (n ≠ 0)
  | .str s => !s.data.isEmpty
  | .arr xs => !xs.isEmpty
  | .obj fs => !fs.isEmpty

/-- The Python exceptions that flow through the source: the raw botocore
ClientError, the four custom exception classes (lines 166-176), the JSON
decode failure from json.loads, the KeyError from a response that has
neither payload field, and a generic Exception carrying only a message
(downstream/query failures, which the source inspects by message only). -/
inductive PyError where
  | clientError (code msg : String)
  | secretNotFound (msg : String)
  | secretRotationInProgress (msg : String)
  | secretAccessDenied (msg : String)
  | secretDecryption (msg : String)
  | jsonDecodeError (msg : String)
  | keyError (msg : String)
  | genericError (msg : String)
deriving DecidableEq

/-- One cached record: the dict stored at `self.cache[cache_key]`
(lines 85-89). -/
structure CacheEntry where
  value : SecretValue
  version_id : String
  timestamp : Int

/-- The dict `self.cache`, as an association list with dict semantics. -/
abbrev Cache := List (String × CacheEntry)

/-- Dict lookup: first binding of the key, if any. -/
def dictGet : Cache → String → Option CacheEntry
  | [], _ => none
  | (k, v) :: rest, key => if k = key then some v else dictGet rest key

/-- Dict assignment `self.cache[cache_key] = ...`: replace in place or
append. -/
def dictSet : Cache → String → CacheEntry → Cache
  | [], key, v => [(key, v)]
  | (k, w) :: rest, key, v =>
    if k = key then (key, v) :: rest else (k, w) :: dictSet rest key v

/-- The response of the remote GetSecretValue call: either a payload
(`SecretString` and/or `SecretBinary`, plus `VersionId`) or a ClientError
carrying an error code and message. -/
structure GetSecretResponse where
  secretString : Option String
  secretBinary : Option (List Nat)
  versionId : String

/-- Outcome of one remote GetSecretValue call. -/
inductive StoreResult where
  | ok (resp : GetSecretResponse)
  | err (code msg : String)

/-- The external capabilities the source uses: the boto3 secretsmanager
client (`self.client.get_secret_value`), json.loads (none = raises
JSONDecodeError), base64.b64encode(...).decode(), and the downstream
connection attempt `_try_connect` (lines 213-235), whose simulated body
reduces to a boolean outcome per credentials payload because its except
clause folds every exception to False. -/
structure Env where
  remote : String → String → StoreResult
  parseJson : String → Option SecretValue
  b64encode : List Nat → String
  try_connect : SecretValue → Bool

/-- The cache key `f"{secret_id}:{version_stage}"` (line 61). -/
def cacheKeyOf (secret_id version_stage : String) : String :=
  secret_id ++ ":" ++ version_stage

/-- The except-ClientError branch of get_secret (lines 94-118): translate
the store error code into the closed taxonomy, re-raising the raw
ClientError in the pass-through cases. -/
def mapClientError (secret_id code msg : String) : PyError :=
  if code = "ResourceNotFoundException" then
    .secretNotFound ("Secret not found: " ++ secret_id)
  else if code = "InvalidRequestException" then
    if strContainsSub (strLower msg) "pending" then
      .secretRotationInProgress ("Secret rotation in progress for " ++ secret_id)
    else
      .clientError code msg
  else if code = "AccessDeniedException" then
    .secretAccessDenied ("Access denied to " ++ secret_id)
  else if code = "DecryptionFailure" then
    .secretDecryption ("Cannot decrypt " ++ secret_id ++ " - check KMS permissions")
  else
    .clientError code msg

/-- Result of one get_secret call: the returned value or raised error, the
cache state afterwards, and whether the remote store was called. -/
structure FetchResult where
  result : Except PyError SecretValue
  cache : Cache
  network : Bool

/-- The cache check of get_secret (lines 63-68): a non-stale entry under
the key, when use_cache is set. -/
def cacheProbe (ttl : Int) (cache : Cache) (now : Int) (key : String)
    (use_cache : Bool) : Option SecretValue :=
  if use_cache then
    match dictGet cache key with
    | some e => if now - e.timestamp < ttl then some e.value else none
    | none => none
  else none

/-- The network path of get_secret (lines 70-118): call the remote store,
parse the payload, cache on success, translate ClientErrors. -/
def fetchRemote (env : Env) (cache : Cache) (now : Int)
    (key secret_id version_stage : String) : FetchResult :=
  match env.remote secret_id version_stage with
  | .err code msg => ⟨.error (mapClientError secret_id code msg), cache, true⟩
  | .ok resp =>
    match resp.secretString with
    | some s =>
      match env.parseJson s with
      | some v => ⟨.ok v, dictSet cache key ⟨v, resp.versionId, now⟩, true⟩
      | none => ⟨.error (.jsonDecodeError s), cache, true⟩
    | none =>
      match resp.secretBinary with
      | some b =>
        let v : SecretValue := .obj [("binary", .str (env.b64encode b))]
        ⟨.ok v, dictSet cache key ⟨v, resp.versionId, now⟩, true⟩
      | none => ⟨.error (.keyError "SecretBinary"), cache, true⟩

/-- SecretsClient.get_secret (lines 39-118). -/
def get_secret (env : Env) (ttl : Int) (cache : Cache) (now : Int)
    (secret_id version_stage : String) (use_cache : Bool) : FetchResult :=
  let key := cacheKeyOf secret_id version_stage
  match cacheProbe ttl cache now key use_cache with
  | some v => ⟨.ok v, cache, false⟩
  | none => fetchRemote env cache now key secret_id version_stage

/-- The dict returned by get_both_versions (lines 126-133): `pending` is the
Python value stored under that key, whose initial None and a fetched JSON
null are the same object `SecretValue.null`. -/
structure Snapshot where
  current : SecretValue
  pending : SecretValue
  is_rotating : Bool

/-- Which errors the `except (ClientError, SecretNotFoundError)` clause of
get_both_versions (line 143) catches. -/
def caughtByPendingProbe : PyError → Bool
  | .clientError _ _ => true
  | .secretNotFound _ => true
  | _ => false

/-- SecretsClient.get_both_versions (lines 120-146). -/
def get_both_versions (env : Env) (ttl : Int) (cache : Cache) (now : Int)
    (secret_id : String) : Except PyError Snapshot × Cache :=
  let r1 := get_secret env ttl cache now secret_id "AWSCURRENT" true
  match r1.result with
  | .error e => (.error e, r1.cache)
  | .ok cur =>
    let r2 := get_secret env ttl r1.cache now secret_id "AWSPENDING" true
    match r2.result with
    | .ok p => (.ok ⟨cur, p, true⟩, r2.cache)
    | .error e =>
      if caughtByPendingProbe e then (.ok ⟨cur, .null, false⟩, r2.cache)
      else (.error e, r2.cache)

/-- SecretsClient.invalidate_cache (lines 148-162).  The argument None, and
the empty string, which is falsy under `if secret_id:`, both take the
clear-all branch; a non-empty identifier removes the keys that start with
it. -/
def invalidate_cache (cache : Cache) (secret_id : Option String) : Cache :=
  match secret_id with
  | some sid =>
    if sid = "" then []
    else cache.filter (fun kv => !(strStarts kv.1 sid))
  | none => []

/-- Result of one connect call: the returned boolean or the error
propagated out of get_both_versions, the cache afterwards, and the labels
of the credential versions passed to _try_connect, in order. -/
structure ConnectResult where
  outcome : Except PyError Bool
  cache : Cache
  attempts : List String

/-- DatabaseConnectionWithRotation.connect (lines 193-211). -/
def connect (env : Env) (ttl : Int) (cache : Cache) (now : Int)
    (secret_id : String) : ConnectResult :=
  let g := get_both_versions env ttl cache now secret_id
  match g.1 with
  | .error e => ⟨.error e, g.2, []⟩
  | .ok snap =>
    if env.try_connect snap.current then ⟨.ok true, g.2, ["CURRENT"]⟩
    else if snap.is_rotating && pyTruthy snap.pending then
      if env.try_connect snap.pending then
        ⟨.ok true, g.2, ["CURRENT", "PENDING"]⟩
      else ⟨.ok false, g.2, ["CURRENT", "PENDING"]⟩
    else ⟨.ok false, g.2, ["CURRENT"]⟩

/-- The authentication-failure test of execute_with_retry (line 248):
`"authentication" in str(e).lower() or "password" in str(e).lower()`. -/
def isAuthMsg (msg : String) : Bool :=
  strContainsSub (strLower msg) "authentication" ||
    strContainsSub (strLower msg) "password"

/-- Classify the outcome of one simulated query attempt: none is success,
some msg is an exception whose str() is msg. -/
def isAuthFail : Option String → Bool
  | none => false
  | some m => isAuthMsg m

/-- Result of one execute_with_retry call, with an attempt trace: how many
attempts ran, how many cache invalidations happened, and how many times
connect was re-run. -/
structure RetryResult where
  result : Except PyError String
  cache : Cache
  attempts : Nat
  invalidations : Nat
  reconnects : Nat

/-- The `for attempt in range(max_retries + 1)` loop of execute_with_retry
(lines 241-257).  `outcomes i` is the injected result of the simulated
query on attempt i (the try body at line 245 is a stub; the except clause
is the code under test).  Fuel 0 is the fall-through past the loop, the
unreachable `raise Exception(...)` at line 257. -/
def retryLoop (env : Env) (ttl : Int) (now : Int) (secret_id : String)
    (outcomes : Nat → Option String) (maxRetries : Nat) :
    Nat → Nat → Cache → RetryResult
  | 0, _, cache => ⟨.error (.genericError "Max retries exceeded"), cache, 0, 0, 0⟩
  | fuel + 1, i, cache =>
    match outcomes i with
    | none => ⟨.ok "success", cache, 1, 0, 0⟩
    | some msg =>
      if isAuthMsg msg then
        let cache1 := invalidate_cache cache (some secret_id)
        if i < maxRetries then
          let cr := connect env ttl cache1 now secret_id
          match cr.outcome with
          | .error e => ⟨.error e, cr.cache, 1, 1, 1⟩
          | .ok _ =>
            let r := retryLoop env ttl now secret_id outcomes maxRetries fuel (i + 1) cr.cache
            ⟨r.result, r.cache, r.attempts + 1, r.invalidations + 1, r.reconnects + 1⟩
        else ⟨.error (.genericError msg), cache1, 1, 1, 0⟩
      else ⟨.error (.genericError msg), cache, 1, 0, 0⟩

/-- DatabaseConnectionWithRotation.execute_with_retry (lines 237-257). -/
def execute_with_retry (env : Env) (ttl : Int) (cache : Cache) (now : Int)
    (secret_id : String) (outcomes : Nat → Option String)
    (maxRetries : Nat) : RetryResult :=
  retryLoop env ttl now secret_id outcomes maxRetries (maxRetries + 1) 0 cache

/-- How many of the n query outcomes starting at attempt i are
authentication-class failures. -/
def countAuthIn (outcomes : Nat → Option String) : Nat → Nat → Nat
  | _, 0 => 0
  | i, n + 1 =>
    (if isAuthFail (outcomes i) then 1 else 0) + countAuthIn outcomes (i + 1) n

/-- How many of the n query outcomes starting at attempt i are
authentication-class failures with retry budget remaining. -/
def countAuthRetryIn (outcomes : Nat → Option String) (maxRetries : Nat) :
    Nat → Nat → Nat
  | _, 0 => 0
  | i, n + 1 =>
    (if isAuthFail (outcomes i) && decide (i < maxRetries) then 1 else 0) +
      countAuthRetryIn outcomes maxRetries (i + 1) n

/-- Is an Except value a success? -/
def exceptOk : Except PyError Bool → Bool
  | .ok _ => true
  | .error _ => false

/-- The closed error taxonomy of the spec (sections 6 and 7). -/
inductive ErrKind where
  | notFound
  | rotationInProgress
  | accessDenied
  | decryptionFailure
  | unknown
deriving DecidableEq

/-- Modelled from the spec (section 6): the prescribed classification of a
store error code and message into the closed taxonomy, with the message
substring "pending" as the pending-state indicator the source uses. -/
def specErrorClass (code msg : String) : ErrKind :=
  if code = "ResourceNotFoundException" then .notFound
  else if code = "InvalidRequestException" then
    if strContainsSub (strLower msg) "pending" then .rotationInProgress
    else .unknown
  else if code = "AccessDeniedException" then .accessDenied
  else if code = "DecryptionFailure" then .decryptionFailure
  else .unknown

/-- Which taxonomy slot a raised error occupies: the four typed exception
classes are their slots, everything else (in particular a re-raised raw
ClientError) is the Unknown pass-through. -/
def errKindOf : PyError → ErrKind
  | .secretNotFound _ => .notFound
  | .secretRotationInProgress _ => .rotationInProgress
  | .secretAccessDenied _ => .accessDenied
  | .secretDecryption _ => .decryptionFailure
  | _ => .unknown

/-- Membership in the closed taxonomy of get_secret failures: the four
typed exception classes plus the raw ClientError pass-through.  A
JSONDecodeError is outside it. -/
def inClosedTaxonomy : PyError → Bool
  | .secretNotFound _ => true
  | .secretRotationInProgress _ => true
  | .secretAccessDenied _ => true
  | .secretDecryption _ => true
  | .clientError _ _ => true
  | _ => false

/-- A concrete environment: every remote fetch succeeds with the payload
string of an empty JSON object, the decoder parses exactly that string and
the literal JSON null, and every downstream connection attempt succeeds. -/
def envA : Env where
  remote := fun _ _ => .ok ⟨some "{}", none, "v1"⟩
  parseJson := fun s =>
    if s = "{}" then some (.obj []) else if s = "null" then some .null else none
  b64encode := fun _ => ""
  try_connect := fun _ => true

/-- A concrete environment where every remote fetch is denied. -/
def envErr : Env :=
  { envA with remote := fun _ _ => .err "AccessDeniedException" "denied" }

/-- A concrete environment where the CURRENT fetch succeeds and the PENDING
fetch succeeds with the payload string null, which json.loads turns into
Python None. -/
def envNullPending : Env :=
  { envA with
    remote := fun _ stage =>
      if stage = "AWSPENDING" then .ok ⟨some "null", none, "v2"⟩
      else .ok ⟨some "{}", none, "v1"⟩ }

/-- A concrete environment where the CURRENT fetch succeeds and the PENDING
fetch fails with AccessDeniedException. -/
def envDeniedPending : Env :=
  { envA with
    remote := fun _ stage =>
      if stage = "AWSPENDING" then .err "AccessDeniedException" "denied"
      else .ok ⟨some "{}", none, "v1"⟩ }

/-- A concrete environment where the CURRENT fetch succeeds and the PENDING
fetch fails with ResourceNotFoundException. -/
def envNFPending : Env :=
  { envA with
    remote := fun _ stage =>
      if stage = "AWSPENDING" then .err "ResourceNotFoundException" "missing"
      else .ok ⟨some "{}", none, "v1"⟩ }

/-- A concrete environment where the remote call succeeds but returns a
payload string the JSON decoder rejects. -/
def envBadJson : Env :=
  { envA with remote := fun _ _ => .ok ⟨some "oops", none, "v1"⟩ }

/-- A concrete one-entry cache fetched at time 0. -/
def cacheW : Cache := [("s:AWSCURRENT", ⟨.str "cached", "v0", 0⟩)]

/-- Query outcomes where every attempt fails with an authentication-class
message. -/
def outcomesAllAuth : Nat → Option String := fun _ => some "authentication error"

/-- Query outcomes where the first attempt fails with an
authentication-class message and every later one with an unrelated
message. -/
def outcomesAuthThenOther : Nat → Option String := fun k =>
  if k = 0 then some "password expired" else some "syntax error"

/-! ## Helper lemmas -/

theorem dictGet_dictSet_self (cache : Cache) (key : String) (e : CacheEntry) :
    dictGet (dictSet cache key e) key = some e := by
  induction cache with
  | nil => simp [dictSet, dictGet]
  | cons hd tl ih =>
    obtain ⟨k, v⟩ := hd
    by_cases hk : k = key
    · simp [dictSet, dictGet, hk]
    · simp [dictSet, dictGet, hk, ih]

theorem cacheProbe_hit {cache : Cache} {key : String} {e : CacheEntry}
    {ttl now : Int} (h : dictGet cache key = some e)
    (hf : now - e.timestamp < ttl) :
    cacheProbe ttl cache now key true = some e.value := by
  simp [cacheProbe, h, hf]

theorem cacheProbe_miss {cache : Cache} {key : String} {ttl now : Int}
    (uc : Bool)
    (h : ∀ e, dictGet cache key = some e → ttl ≤ now - e.timestamp) :
    cacheProbe ttl cache now key uc = none := by
  cases uc with
  | false => rfl
  | true =>
    unfold cacheProbe
    cases hg : dictGet cache key with
    | none => simp
    | some e =>
      have hle := h e hg
      simp [hg]
      omega

theorem fetchRemote_network (env : Env) (cache : Cache) (now : Int)
    (key secret_id version_stage : String) :
    (fetchRemote env cache now key secret_id version_stage).network = true := by
  rcases hr : env.remote secret_id version_stage with ⟨ss, sb, vid⟩ | ⟨code, msg⟩
  · rcases ss with _ | s
    · rcases sb with _ | b <;> simp [fetchRemote, hr]
    · rcases hp : env.parseJson s with _ | v <;> simp [fetchRemote, hr, hp]
  · simp [fetchRemote, hr]

theorem fetchRemote_error_preserves (env : Env) (cache : Cache) (now : Int)
    (key secret_id version_stage : String) (e : PyError)
    (h : (fetchRemote env cache now key secret_id version_stage).result = .error e) :
    (fetchRemote env cache now key secret_id version_stage).cache = cache := by
  rcases hr : env.remote secret_id version_stage with ⟨ss, sb, vid⟩ | ⟨code, msg⟩
  · rcases ss with _ | s
    · rcases sb with _ | b
      · simp [fetchRemote, hr]
      · simp [fetchRemote, hr] at h
    · rcases hp : env.parseJson s with _ | v
      · simp [fetchRemote, hr, hp]
      · simp [fetchRemote, hr, hp] at h
  · simp [fetchRemote, hr]

theorem fetchRemote_success_caches (env : Env) (cache : Cache) (now : Int)
    (key secret_id version_stage : String) (resp : GetSecretResponse)
    (v : SecretValue)
    (hr : env.remote secret_id version_stage = .ok resp)
    (hv : (fetchRemote env cache now key secret_id version_stage).result = .ok v) :
    dictGet (fetchRemote env cache now key secret_id version_stage).cache key
      = some ⟨v, resp.versionId, now⟩ := by
  obtain ⟨ss, sb, vid⟩ := resp
  rcases ss with _ | s
  · rcases sb with _ | b
    · simp [fetchRemote, hr] at hv
    · simp only [fetchRemote, hr] at hv ⊢
      simp at hv ⊢
      rw [← hv]
      exact dictGet_dictSet_self cache key _
  · rcases hp : env.parseJson s with _ | w
    · simp [fetchRemote, hr, hp] at hv
    · simp only [fetchRemote, hr] at hv ⊢
      simp [hp] at hv ⊢
      rw [← hv]
      exact dictGet_dictSet_self cache key _

/-! ## Claims about get_secret -/

/-- Claim C1: a get_secret call with use_cache strictly within ttl of a
cached record for the same key returns exactly that cached value with no
network call and no cache change; a call with the entry absent or with ttl
elapsed makes a network call and, on success, replaces the cache entry for
the key by the freshly fetched record, carrying the response version id
and the current time. -/
theorem get_secret_cache_ttl (env : Env) (ttl : Int) (cache : Cache)
    (now : Int) (secret_id version_stage : String) :
    (∀ e, dictGet cache (cacheKeyOf secret_id version_stage) = some e →
      now - e.timestamp < ttl →
      get_secret env ttl cache now secret_id version_stage true
        = ⟨.ok e.value, cache, false⟩) ∧
    ((∀ e, dictGet cache (cacheKeyOf secret_id version_stage) = some e →
        ttl ≤ now - e.timestamp) →
      (get_secret env ttl cache now secret_id version_stage true).network = true ∧
      ∀ resp v, env.remote secret_id version_stage = .ok resp →
        (get_secret env ttl cache now secret_id version_stage true).result = .ok v →
        dictGet (get_secret env ttl cache now secret_id version_stage true).cache
            (cacheKeyOf secret_id version_stage)
          = some ⟨v, resp.versionId, now⟩) := by
  constructor
  · intro e he hf
    simp only [get_secret, cacheProbe_hit he hf]
  · intro hmiss
    simp only [get_secret, cacheProbe_miss true hmiss]
    exact ⟨fetchRemote_network env cache now _ secret_id version_stage,
      fun resp v hr hv =>
        fetchRemote_success_caches env cache now _ secret_id version_stage resp v hr hv⟩

theorem get_secret_cache_ttl_witness :
    get_secret envA 300 cacheW 10 "s" "AWSCURRENT" true
      = ⟨.ok (.str "cached"), cacheW, false⟩ ∧
    (get_secret envA 300 cacheW 300 "s" "AWSCURRENT" true).network = true ∧
    dictGet (get_secret envA 300 cacheW 300 "s" "AWSCURRENT" true).cache
        (cacheKeyOf "s" "AWSCURRENT")
      = some ⟨.obj [], "v1", 300⟩ := by
  have hstale : ∀ e, dictGet cacheW (cacheKeyOf "s" "AWSCURRENT") = some e →
      (300 : Int) ≤ 300 - e.timestamp := by
    intro e he
    have hw : dictGet cacheW (cacheKeyOf "s" "AWSCURRENT")
        = some ⟨.str "cached", "v0", 0⟩ := rfl
    rw [hw] at he
    injection he with he
    rw [← he]
    decide
  have h1 := (get_secret_cache_ttl envA 300 cacheW 10 "s" "AWSCURRENT").1
    ⟨.str "cached", "v0", 0⟩ rfl (by decide)
  have h2 := (get_secret_cache_ttl envA 300 cacheW 300 "s" "AWSCURRENT").2 hstale
  exact ⟨h1, h2.1, h2.2 ⟨some "{}", none, "v1"⟩ (.obj []) rfl rfl⟩

/-- Claim C4: on a remote failure, get_secret raises the error obtained by
the source translation, that translation lands in exactly the taxonomy
slot the spec prescribes for the code and message, and in the Unknown
slots the original ClientError passes through unchanged; no remote failure
is swallowed into a success. -/
theorem error_taxonomy (env : Env) (ttl : Int) (cache : Cache) (now : Int)
    (secret_id version_stage code msg : String) (uc : Bool)
    (hr : env.remote secret_id version_stage = .err code msg)
    (hmiss : ∀ e, dictGet cache (cacheKeyOf secret_id version_stage) = some e →
      ttl ≤ now - e.timestamp) :
    (get_secret env ttl cache now secret_id version_stage uc).result
      = .error (mapClientError secret_id code msg) ∧
    errKindOf (mapClientError secret_id code msg) = specErrorClass code msg ∧
    (specErrorClass code msg = .unknown →
      mapClientError secret_id code msg = .clientError code msg) := by
  refine ⟨?_, ?_, ?_⟩
  · simp [get_secret, cacheProbe_miss uc hmiss, fetchRemote, hr]
  · unfold mapClientError specErrorClass
    split_ifs <;> simp [errKindOf]
  · unfold mapClientError specErrorClass
    split_ifs <;> simp

theorem error_taxonomy_witness :
    (get_secret envErr 300 [] 0 "s" "AWSCURRENT" true).result
      = .error (.secretAccessDenied "Access denied to s") ∧
    errKindOf (.secretAccessDenied "Access denied to s")
      = specErrorClass "AccessDeniedException" "denied" := by
  have h := error_taxonomy envErr 300 [] 0 "s" "AWSCURRENT"
    "AccessDeniedException" "denied" true rfl
    (by intro e he; simp [dictGet] at he)
  exact ⟨h.1, h.2.1⟩

/-- Claim C7: whenever get_secret fails, the cache afterwards is exactly
the cache before: no entry was added, removed or changed. -/
theorem get_secret_failure_preserves_cache (env : Env) (ttl : Int)
    (cache : Cache) (now : Int) (secret_id version_stage : String)
    (uc : Bool) (e : PyError)
    (h : (get_secret env ttl cache now secret_id version_stage uc).result = .error e) :
    (get_secret env ttl cache now secret_id version_stage uc).cache = cache := by
  cases hp : cacheProbe ttl cache now (cacheKeyOf secret_id version_stage) uc with
  | some v => simp [get_secret, hp] at h
  | none =>
    simp only [get_secret, hp] at h ⊢
    exact fetchRemote_error_preserves env cache now _ secret_id version_stage e h

theorem get_secret_failure_preserves_cache_witness :
    (get_secret envErr 300 [] 0 "s" "AWSCURRENT" true).cache = [] :=
  get_secret_failure_preserves_cache envErr 300 [] 0 "s" "AWSCURRENT" true
    (.secretAccessDenied "Access denied to s") rfl

/-- Claim C10: when the remote call succeeds but the textual payload fails
to parse as JSON, get_secret raises the raw decode failure, which lies
outside the closed taxonomy of typed failures and ClientError
pass-throughs, and the cache is left unchanged. -/
theorem json_parse_failure (env : Env) (ttl : Int) (cache : Cache)
    (now : Int) (secret_id version_stage s : String) (uc : Bool)
    (resp : GetSecretResponse)
    (hr : env.remote secret_id version_stage = .ok resp)
    (hs : resp.secretString = some s)
    (hp : env.parseJson s = none)
    (hmiss : ∀ e, dictGet cache (cacheKeyOf secret_id version_stage) = some e →
      ttl ≤ now - e.timestamp) :
    (get_secret env ttl cache now secret_id version_stage uc).result
      = .error (.jsonDecodeError s) ∧
    (get_secret env ttl cache now secret_id version_stage uc).cache = cache ∧
    inClosedTaxonomy (.jsonDecodeError s) = false := by
  simp [get_secret, cacheProbe_miss uc hmiss, fetchRemote, hr, hs, hp,
    inClosedTaxonomy]

theorem json_parse_failure_witness :
    (get_secret envBadJson 300 [] 0 "s" "AWSCURRENT" true).result
      = .error (.jsonDecodeError "oops") ∧
    (get_secret envBadJson 300 [] 0 "s" "AWSCURRENT" true).cache = [] ∧
    inClosedTaxonomy (.jsonDecodeError "oops") = false := by
  have h := json_parse_failure envBadJson 300 [] 0 "s" "AWSCURRENT" "oops" true
    ⟨some "oops", none, "v1"⟩ rfl rfl rfl
    (by intro e he; simp [dictGet] at he)
  exact h

/-! ## Claims about get_both_versions -/

/-- Claim C2 fails as stated: is_rotating is true iff the PENDING fetch
succeeds, but the parenthetical equivalence with a populated pending field
breaks when the PENDING payload is the JSON literal null, which json.loads
turns into Python None.  Here the CURRENT fetch returns the empty object,
the PENDING fetch succeeds with payload null, and the snapshot carries
is_rotating true with pending None. -/
theorem rotation_flag_null_pending_cex :
    (get_both_versions envNullPending 300 [] 0 "s").1
      = .ok ⟨.obj [], .null, true⟩ := rfl

/-- Claim C2 as amended: the snapshot has is_rotating true iff the PENDING
fetch succeeds, in which case pending is exactly the fetched payload,
populated whenever that payload is not JSON null; when the PENDING fetch
fails with NotFound the snapshot has is_rotating false and pending None. -/
theorem rotation_flag_iff_pending_fetch (env : Env) (ttl : Int)
    (cache : Cache) (now : Int) (secret_id : String) (cur : SecretValue)
    (h1 : (get_secret env ttl cache now secret_id "AWSCURRENT" true).result = .ok cur) :
    (∀ p, (get_secret env ttl
          (get_secret env ttl cache now secret_id "AWSCURRENT" true).cache
          now secret_id "AWSPENDING" true).result = .ok p →
        (get_both_versions env ttl cache now secret_id).1 = .ok ⟨cur, p, true⟩) ∧
    (∀ m, (get_secret env ttl
          (get_secret env ttl cache now secret_id "AWSCURRENT" true).cache
          now secret_id "AWSPENDING" true).result = .error (.secretNotFound m) →
        (get_both_versions env ttl cache now secret_id).1 = .ok ⟨cur, .null, false⟩) ∧
    (∀ snap, (get_both_versions env ttl cache now secret_id).1 = .ok snap →
        snap.is_rotating = true →
        (get_secret env ttl
          (get_secret env ttl cache now secret_id "AWSCURRENT" true).cache
          now secret_id "AWSPENDING" true).result = .ok snap.pending) := by
  refine ⟨?_, ?_, ?_⟩
  · intro p hp
    simp [get_both_versions, h1, hp]
  · intro m hm
    simp [get_both_versions, h1, hm, caughtByPendingProbe]
  · intro snap hsnap hrot
    cases h2 : (get_secret env ttl
        (get_secret env ttl cache now secret_id "AWSCURRENT" true).cache
        now secret_id "AWSPENDING" true).result with
    | ok p =>
      simp [get_both_versions, h1, h2] at hsnap
      rw [← hsnap]
    | error e =>
      cases hc : caughtByPendingProbe e with
      | true =>
        simp [get_both_versions, h1, h2, hc] at hsnap
        rw [← hsnap] at hrot
        simp at hrot
      | false =>
        simp [get_both_versions, h1, h2, hc] at hsnap

theorem rotation_flag_iff_pending_fetch_witness :
    (get_both_versions envA 300 [] 0 "s").1 = .ok ⟨.obj [], .obj [], true⟩ :=
  (rotation_flag_iff_pending_fetch envA 300 [] 0 "s" (.obj []) rfl).1 (.obj []) rfl

/-- Claim C5 fails as stated: a PENDING-probe failure that is not a raw
ClientError or a NotFound escapes the except clause and aborts the
snapshot.  Here the CURRENT fetch succeeds, yet get_both_versions raises
the AccessDenied failure of the PENDING probe. -/
theorem snapshot_abort_cex :
    (get_secret envDeniedPending 300 [] 0 "s" "AWSCURRENT" true).result
      = .ok (.obj []) ∧
    (get_both_versions envDeniedPending 300 [] 0 "s").1
      = .error (.secretAccessDenied "Access denied to s") := ⟨rfl, rfl⟩

/-- Claim C5 as amended: get_both_versions raises iff the CURRENT fetch
fails or the PENDING probe fails with an error outside the caught pair of
raw ClientError and NotFound; a PENDING-probe failure of one of those two
kinds yields the composed snapshot with pending None and is_rotating
false, while any other PENDING-probe failure aborts the snapshot with that
error. -/
theorem snapshot_error_propagation (env : Env) (ttl : Int) (cache : Cache)
    (now : Int) (secret_id : String) :
    (∀ e, (get_secret env ttl cache now secret_id "AWSCURRENT" true).result = .error e →
       (get_both_versions env ttl cache now secret_id).1 = .error e) ∧
    (∀ cur e, (get_secret env ttl cache now secret_id "AWSCURRENT" true).result = .ok cur →
       (get_secret env ttl
          (get_secret env ttl cache now secret_id "AWSCURRENT" true).cache
          now secret_id "AWSPENDING" true).result = .error e →
       caughtByPendingProbe e = true →
       (get_both_versions env ttl cache now secret_id).1 = .ok ⟨cur, .null, false⟩) ∧
    (∀ cur e, (get_secret env ttl cache now secret_id "AWSCURRENT" true).result = .ok cur →
       (get_secret env ttl
          (get_secret env ttl cache now secret_id "AWSCURRENT" true).cache
          now secret_id "AWSPENDING" true).result = .error e →
       caughtByPendingProbe e = false →
       (get_both_versions env ttl cache now secret_id).1 = .error e) := by
  refine ⟨?_, ?_, ?_⟩
  · intro e he
    simp [get_both_versions, he]
  · intro cur e h1 h2 hc
    simp [get_both_versions, h1, h2, hc]
  · intro cur e h1 h2 hc
    simp [get_both_versions, h1, h2, hc]

theorem snapshot_error_propagation_witness :
    (get_both_versions envNFPending 300 [] 0 "s").1
      = .ok ⟨.obj [], .null, false⟩ :=
  (snapshot_error_propagation envNFPending 300 [] 0 "s").2.1 (.obj [])
    (.secretNotFound "Secret not found: s") rfl rfl rfl

/-! ## Claims about connect -/

/-- Claim C3: given the snapshot, connect tries the CURRENT credentials
first and, on success, terminates connected having attempted only CURRENT;
PENDING is attempted only when the CURRENT attempt fails and the snapshot
is rotating, and never when is_rotating is false; when CURRENT fails,
connect succeeds iff rotation is active, the pending payload is truthy and
the PENDING attempt succeeds; every run with a snapshot terminates with a
boolean, connected or failed, with no further fallback. -/
theorem connect_state_machine (env : Env) (ttl : Int) (cache : Cache)
    (now : Int) (secret_id : String) (snap : Snapshot)
    (hsnap : (get_both_versions env ttl cache now secret_id).1 = .ok snap) :
    (env.try_connect snap.current = true →
       (connect env ttl cache now secret_id).outcome = .ok true ∧
       (connect env ttl cache now secret_id).attempts = ["CURRENT"]) ∧
    ("PENDING" ∈ (connect env ttl cache now secret_id).attempts →
       env.try_connect snap.current = false ∧ snap.is_rotating = true) ∧
    (snap.is_rotating = false →
       (connect env ttl cache now secret_id).attempts = ["CURRENT"]) ∧
    (env.try_connect snap.current = false →
       ((connect env ttl cache now secret_id).outcome = .ok true ↔
         (snap.is_rotating && pyTruthy snap.pending
           && env.try_connect snap.pending) = true)) ∧
    ((connect env ttl cache now secret_id).outcome = .ok true ∨
       (connect env ttl cache now secret_id).outcome = .ok false) := by
  refine ⟨?_, ?_, ?_, ?_, ?_⟩
  · intro hcur
    constructor <;> simp [connect, hsnap, hcur]
  · intro hmem
    cases hcur : env.try_connect snap.current with
    | true => simp [connect, hsnap, hcur] at hmem
    | false =>
      cases hrot : snap.is_rotating with
      | false => simp [connect, hsnap, hcur, hrot] at hmem
      | true => exact ⟨rfl, rfl⟩
  · intro hrot
    cases hcur : env.try_connect snap.current <;>
      simp [connect, hsnap, hcur, hrot]
  · intro hcur
    constructor
    · intro hout
      cases hrot2 : snap.is_rotating && pyTruthy snap.pending with
      | false => simp [connect, hsnap, hcur, hrot2] at hout
      | true =>
        cases hpend : env.try_connect snap.pending with
        | false => simp [connect, hsnap, hcur, hrot2, hpend] at hout
        | true => rfl
    · intro hall
      simp only [Bool.and_eq_true] at hall
      obtain ⟨⟨ha, hb⟩, hc⟩ := hall
      simp [connect, hsnap, hcur, ha, hb, hc]
  · cases hcur : env.try_connect snap.current with
    | true => left; simp [connect, hsnap, hcur]
    | false =>
      cases hrot2 : snap.is_rotating && pyTruthy snap.pending with
      | false => right; simp [connect, hsnap, hcur, hrot2]
      | true =>
        cases hpend : env.try_connect snap.pending with
        | false => right; simp [connect, hsnap, hcur, hrot2, hpend]
        | true => left; simp [connect, hsnap, hcur, hrot2, hpend]

theorem connect_state_machine_witness :
    (connect envA 300 [] 0 "s").outcome = .ok true ∧
    (connect envA 300 [] 0 "s").attempts = ["CURRENT"] :=
  (connect_state_machine envA 300 [] 0 "s" ⟨.obj [], .obj [], true⟩ rfl).1 rfl

/-! ## Helper lemmas for the concrete always-succeeding environment -/

theorem get_secret_envA_ok (c : Cache) (now : Int) (stage : String) (uc : Bool) :
    ∃ v, (get_secret envA 300 c now "s" stage uc).result = .ok v := by
  cases hp : cacheProbe 300 c now (cacheKeyOf "s" stage) uc with
  | some v => exact ⟨v, by simp [get_secret, hp]⟩
  | none =>
    refine ⟨.obj [], ?_⟩
    simp [get_secret, hp, fetchRemote, envA]

theorem connect_envA_ok (c : Cache) (now : Int) :
    (connect envA 300 c now "s").outcome = .ok true := by
  obtain ⟨v1, h1⟩ := get_secret_envA_ok c now "AWSCURRENT" true
  obtain ⟨v2, h2⟩ := get_secret_envA_ok
    (get_secret envA 300 c now "s" "AWSCURRENT" true).cache now "AWSPENDING" true
  have hg : (get_both_versions envA 300 c now "s").1 = .ok ⟨v1, v2, true⟩ := by
    simp [get_both_versions, h1, h2]
  have htc : envA.try_connect v1 = true := rfl
  simp [connect, hg, htc]

/-! ## Helper lemmas about the retry loop -/

theorem retryLoop_attempts_le (env : Env) (ttl : Int) (now : Int)
    (secret_id : String) (outcomes : Nat → Option String) (maxRetries : Nat) :
    ∀ fuel i cache,
      (retryLoop env ttl now secret_id outcomes maxRetries fuel i cache).attempts
        ≤ fuel := by
  intro fuel
  induction fuel with
  | zero => intro i cache; simp [retryLoop]
  | succ fuel ih =>
    intro i cache
    cases ho : outcomes i with
    | none => simp [retryLoop, ho]
    | some msg =>
      cases hauth : isAuthMsg msg with
      | false => simp [retryLoop, ho, hauth]
      | true =>
        by_cases hb : i < maxRetries
        · cases hc : (connect env ttl (invalidate_cache cache (some secret_id))
              now secret_id).outcome with
          | error e => simp [retryLoop, ho, hauth, hb, hc]
          | ok b =>
            have hrec := ih (i + 1)
              (connect env ttl (invalidate_cache cache (some secret_id)) now secret_id).cache
            simp [retryLoop, ho, hauth, hb, hc]
            omega
        · simp [retryLoop, ho, hauth, hb]

theorem retryLoop_trace (env : Env) (ttl : Int) (now : Int)
    (secret_id : String) (outcomes : Nat → Option String) (maxRetries : Nat) :
    ∀ fuel i cache,
      (retryLoop env ttl now secret_id outcomes maxRetries fuel i cache).invalidations
        = countAuthIn outcomes i
            (retryLoop env ttl now secret_id outcomes maxRetries fuel i cache).attempts ∧
      (retryLoop env ttl now secret_id outcomes maxRetries fuel i cache).reconnects
        = countAuthRetryIn outcomes maxRetries i
            (retryLoop env ttl now secret_id outcomes maxRetries fuel i cache).attempts ∧
      (∀ k m,
        k < (retryLoop env ttl now secret_id outcomes maxRetries fuel i cache).attempts →
        outcomes (i + k) = some m → isAuthMsg m = false →
        i + k + 1
          = i + (retryLoop env ttl now secret_id outcomes maxRetries fuel i cache).attempts ∧
        (retryLoop env ttl now secret_id outcomes maxRetries fuel i cache).result
          = .error (.genericError m)) := by
  intro fuel
  induction fuel with
  | zero =>
    intro i cache
    refine ⟨by simp [retryLoop, countAuthIn], by simp [retryLoop, countAuthRetryIn], ?_⟩
    intro k m hk _ _
    simp [retryLoop] at hk
  | succ fuel ih =>
    intro i cache
    cases ho : outcomes i with
    | none =>
      refine ⟨by simp [retryLoop, ho, countAuthIn, isAuthFail],
        by simp [retryLoop, ho, countAuthRetryIn, isAuthFail], ?_⟩
      intro k m hk hout hnot
      simp [retryLoop, ho] at hk
      have hk0 : k = 0 := by omega
      subst hk0
      rw [Nat.add_zero, ho] at hout
      exact Option.noConfusion hout
    | some msg =>
      cases hauth : isAuthMsg msg with
      | false =>
        refine ⟨by simp [retryLoop, ho, hauth, countAuthIn, isAuthFail],
          by simp [retryLoop, ho, hauth, countAuthRetryIn, isAuthFail], ?_⟩
        intro k m hk hout hnot
        simp [retryLoop, ho, hauth] at hk
        have hk0 : k = 0 := by omega
        subst hk0
        rw [Nat.add_zero, ho] at hout
        injection hout with he
        subst he
        refine ⟨by simp [retryLoop, ho, hauth], by simp [retryLoop, ho, hauth]⟩
      | true =>
        by_cases hb : i < maxRetries
        · cases hc : (connect env ttl (invalidate_cache cache (some secret_id))
              now secret_id).outcome with
          | error e =>
            refine ⟨by simp [retryLoop, ho, hauth, hb, hc, countAuthIn, isAuthFail],
              by simp [retryLoop, ho, hauth, hb, hc, countAuthRetryIn, isAuthFail], ?_⟩
            intro k m hk hout hnot
            simp [retryLoop, ho, hauth, hb, hc] at hk
            have hk0 : k = 0 := by omega
            subst hk0
            rw [Nat.add_zero, ho] at hout
            injection hout with he
            subst he
            rw [hauth] at hnot
            exact Bool.noConfusion hnot
          | ok b =>
            obtain ⟨ih1, ih2, ih3⟩ := ih (i + 1)
              (connect env ttl (invalidate_cache cache (some secret_id)) now secret_id).cache
            refine ⟨?_, ?_, ?_⟩
            · simp [retryLoop, ho, hauth, hb, hc, countAuthIn, isAuthFail]
              omega
            · simp [retryLoop, ho, hauth, hb, hc, countAuthRetryIn, isAuthFail]
              omega
            · intro k m hk hout hnot
              cases k with
              | zero =>
                rw [Nat.add_zero, ho] at hout
                injection hout with he
                subst he
                rw [hauth] at hnot
                exact Bool.noConfusion hnot
              | succ k =>
                simp [retryLoop, ho, hauth, hb, hc] at hk
                have hout2 : outcomes (i + 1 + k) = some m := by
                  rw [show i + 1 + k = i + (k + 1) from by omega]
                  exact hout
                have h3 := ih3 k m (by omega) hout2 hnot
                constructor
                · simp [retryLoop, ho, hauth, hb, hc]
                  omega
                · simp [retryLoop, ho, hauth, hb, hc]
                  exact h3.2
        · refine ⟨by simp [retryLoop, ho, hauth, hb, countAuthIn, isAuthFail],
            by simp [retryLoop, ho, hauth, hb, countAuthRetryIn, isAuthFail], ?_⟩
          intro k m hk hout hnot
          simp [retryLoop, ho, hauth, hb] at hk
          have hk0 : k = 0 := by omega
          subst hk0
          rw [Nat.add_zero, ho] at hout
          injection hout with he
          subst he
          rw [hauth] at hnot
          exact Bool.noConfusion hnot

theorem retryLoop_allauth (env : Env) (ttl : Int) (now : Int)
    (secret_id : String) (outcomes : Nat → Option String) (maxRetries : Nat)
    (hall : ∀ k, isAuthFail (outcomes k) = true)
    (hconn : ∀ c, exceptOk (connect env ttl c now secret_id).outcome = true) :
    ∀ fuel i cache, 0 < fuel → i + fuel = maxRetries + 1 →
      (retryLoop env ttl now secret_id outcomes maxRetries fuel i cache).attempts = fuel ∧
      ∀ m, outcomes maxRetries = some m →
        (retryLoop env ttl now secret_id outcomes maxRetries fuel i cache).result
          = .error (.genericError m) := by
  intro fuel
  induction fuel with
  | zero =>
    intro i cache h0 _
    exact absurd h0 (by omega)
  | succ fuel ih =>
    intro i cache _ hsum
    have hai := hall i
    cases ho : outcomes i with
    | none =>
      rw [ho] at hai
      simp [isAuthFail] at hai
    | some msg =>
      rw [ho] at hai
      have hauth : isAuthMsg msg = true := by simpa [isAuthFail] using hai
      by_cases hb : i < maxRetries
      · have hfe : 0 < fuel := by omega
        cases hc : (connect env ttl (invalidate_cache cache (some secret_id))
            now secret_id).outcome with
        | error e =>
          have hcontra := hconn (invalidate_cache cache (some secret_id))
          rw [hc] at hcontra
          simp [exceptOk] at hcontra
        | ok b =>
          have ih' := ih (i + 1)
            (connect env ttl (invalidate_cache cache (some secret_id)) now secret_id).cache
            hfe (by omega)
          constructor
          · simp [retryLoop, ho, hauth, hb, hc, ih'.1]
          · intro m hm
            simp [retryLoop, ho, hauth, hb, hc]
            exact ih'.2 m hm
      · have hieq : i = maxRetries := by omega
        constructor
        · simp [retryLoop, ho, hauth, hb]
          omega
        · intro m hm
          rw [← hieq, ho] at hm
          injection hm with he
          subst he
          simp [retryLoop, ho, hauth, hb]

/-! ## Claims about execute_with_retry -/

/-- Claim C8: the number of cache invalidations of one execute_with_retry
run equals the number of authentication-class failures among the attempts
made, the number of connect re-runs equals the number of
authentication-class failures with retry budget remaining, and any attempt
failing with a non-authentication message is the last attempt and its
failure is surfaced immediately, unchanged. -/
theorem retry_auth_invalidation (env : Env) (ttl : Int) (cache : Cache)
    (now : Int) (secret_id : String) (outcomes : Nat → Option String)
    (maxRetries : Nat) :
    (execute_with_retry env ttl cache now secret_id outcomes maxRetries).invalidations
      = countAuthIn outcomes 0
          (execute_with_retry env ttl cache now secret_id outcomes maxRetries).attempts ∧
    (execute_with_retry env ttl cache now secret_id outcomes maxRetries).reconnects
      = countAuthRetryIn outcomes maxRetries 0
          (execute_with_retry env ttl cache now secret_id outcomes maxRetries).attempts ∧
    (∀ k m,
      k < (execute_with_retry env ttl cache now secret_id outcomes maxRetries).attempts →
      outcomes k = some m → isAuthMsg m = false →
      k + 1 = (execute_with_retry env ttl cache now secret_id outcomes maxRetries).attempts ∧
      (execute_with_retry env ttl cache now secret_id outcomes maxRetries).result
        = .error (.genericError m)) := by
  simp only [execute_with_retry]
  have h := retryLoop_trace env ttl now secret_id outcomes maxRetries
    (maxRetries + 1) 0 cache
  refine ⟨h.1, h.2.1, ?_⟩
  intro k m hk hout hnot
  have h3 := h.2.2 k m hk (by simpa using hout) hnot
  exact ⟨by omega, h3.2⟩

theorem retry_auth_invalidation_witness :
    (execute_with_retry envA 300 [] 0 "s" outcomesAuthThenOther 2).invalidations
      = countAuthIn outcomesAuthThenOther 0
          (execute_with_retry envA 300 [] 0 "s" outcomesAuthThenOther 2).attempts ∧
    1 + 1 = (execute_with_retry envA 300 [] 0 "s" outcomesAuthThenOther 2).attempts ∧
    (execute_with_retry envA 300 [] 0 "s" outcomesAuthThenOther 2).result
      = .error (.genericError "syntax error") := by
  have h := retry_auth_invalidation envA 300 [] 0 "s" outcomesAuthThenOther 2
  have hc := h.2.2 1 "syntax error" (by decide) rfl (by decide)
  exact ⟨h.1, hc.1, hc.2⟩

/-- Claim C6 fails as stated: with every attempt failing as an
authentication-class error and maxRetries 2, the run makes 3 attempts and
then re-raises the last underlying failure itself; the RetriesExhausted
wrapper, the post-loop Exception with message Max retries exceeded, is
never produced because the except clause re-raises before the loop can be
left normally. -/
theorem retries_exhausted_cex :
    (execute_with_retry envA 300 [] 0 "s" outcomesAllAuth 2).attempts = 3 ∧
    (execute_with_retry envA 300 [] 0 "s" outcomesAllAuth 2).result
      = .error (.genericError "authentication error") ∧
    PyError.genericError "authentication error"
      ≠ PyError.genericError "Max retries exceeded" :=
  ⟨rfl, rfl, by decide⟩

/-- Claim C6 as amended: execute_with_retry makes at most maxRetries plus
one attempts; when every attempt fails with an authentication-class error
and connect re-runs succeed, the budget is fully consumed, exactly
maxRetries plus one attempts are made, and the run fails by re-raising the
last underlying failure itself rather than a RetriesExhausted wrapper. -/
theorem retry_attempt_bound_and_exhaustion (env : Env) (ttl : Int)
    (cache : Cache) (now : Int) (secret_id : String)
    (outcomes : Nat → Option String) (maxRetries : Nat) (lastMsg : String)
    (hall : ∀ k, isAuthFail (outcomes k) = true)
    (hconn : ∀ c, exceptOk (connect env ttl c now secret_id).outcome = true)
    (hlast : outcomes maxRetries = some lastMsg) :
    (∀ (env2 : Env) (ttl2 : Int) (cache2 : Cache) (now2 : Int) (id2 : String)
        (outcomes2 : Nat → Option String) (mr2 : Nat),
      (execute_with_retry env2 ttl2 cache2 now2 id2 outcomes2 mr2).attempts ≤ mr2 + 1) ∧
    (execute_with_retry env ttl cache now secret_id outcomes maxRetries).attempts
      = maxRetries + 1 ∧
    (execute_with_retry env ttl cache now secret_id outcomes maxRetries).result
      = .error (.genericError lastMsg) := by
  have hx := retryLoop_allauth env ttl now secret_id outcomes maxRetries hall hconn
    (maxRetries + 1) 0 cache (by omega) (by omega)
  exact ⟨fun env2 ttl2 cache2 now2 id2 outcomes2 mr2 =>
      retryLoop_attempts_le env2 ttl2 now2 id2 outcomes2 mr2 (mr2 + 1) 0 cache2,
    hx.1, hx.2 lastMsg hlast⟩

theorem retry_attempt_bound_and_exhaustion_witness :
    (execute_with_retry envA 300 [] 0 "s" outcomesAllAuth 0).attempts = 0 + 1 ∧
    (execute_with_retry envA 300 [] 0 "s" outcomesAllAuth 0).result
      = .error (.genericError "authentication error") := by
  have h := retry_attempt_bound_and_exhaustion envA 300 [] 0 "s" outcomesAllAuth 0
    "authentication error" (fun _ => rfl)
    (fun c => by rw [connect_envA_ok c 0]; rfl) rfl
  exact ⟨h.2.1, h.2.2⟩

/-! ## Claim about invalidate_cache -/

/-- Claim C9: invalidating with an identifier removes exactly the cache
keys that start with it as a string, so an identifier that is a proper
leading segment of another also removes the entries of the other, and
leaves every non-matching entry unchanged; invalidating with no identifier
empties the cache entirely. -/
theorem invalidate_cache_semantics (cache : Cache) (sid k : String) :
    dictGet (invalidate_cache cache (some sid)) k
      = (if strStarts k sid then none else dictGet cache k) ∧
    invalidate_cache cache none = [] := by
  constructor
  · by_cases hsid : sid = ""
    · subst hsid
      have hks : strStarts k "" = true := rfl
      simp [invalidate_cache, hks, dictGet]
    · simp only [invalidate_cache, if_neg hsid]
      induction cache with
      | nil => simp [dictGet]
      | cons hd tl ih =>
        obtain ⟨k1, v1⟩ := hd
        by_cases h1 : strStarts k1 sid = true
        · simp only [List.filter_cons, h1, Bool.not_true, Bool.false_eq_true,
            if_false]
          rw [ih]
          by_cases hks : strStarts k sid = true
          · simp [hks]
          · have hne : k1 ≠ k := by
              intro he
              rw [he] at h1
              exact hks h1
            simp [hks, dictGet, hne]
        · simp only [List.filter_cons, h1]
          have h1f : strStarts k1 sid = false := by
            cases hx : strStarts k1 sid with
            | false => rfl
            | true => exact absurd hx h1
          simp only [h1f, Bool.not_false, if_true]
          by_cases hk1 : k1 = k
          · subst hk1
            simp [dictGet, h1f]
          · simp only [dictGet, if_neg hk1]
            exact ih
  · rfl

end SecretsClient
